import Mathlib

/-!
Verification of the virtualAust procedural building generator and placement
validator.  The definitions below are shallow embeddings of the TypeScript
source: `MapSystem.tsx` (placement/collision validator) and the
`BuildingScene` geometry generator.  Real-number arithmetic of the source is
modelled over `ℚ`.
-/

namespace VirtualAust

/-- Placement data for one building on the shared ground plane
(`BuildingData` in MapSystem.tsx); `width`/`depth` are optional. -/
structure BuildingData where
  x : ℚ
  z : ℚ
  width : Option ℚ
  depth : Option ℚ
deriving DecidableEq, Repr

/-- JavaScript `v || 1` applied to an optional number: `undefined` (absence)
and the falsy value `0` are both replaced by `1`; any other value is kept. -/
def jsOrOne : Option ℚ → ℚ
  | none => 1
  | some q => if q = 0 then 1 else q

/-- Body of the `some(...)` callback in `checkBuildingCollision`: strict
axis-aligned overlap of the two footprints on both the x and the z axis. -/
def overlapsPair (building other : BuildingData) : Bool :=
  let buildingWidth := jsOrOne building.width
  let buildingDepth := jsOrOne building.depth
  let otherWidth := jsOrOne other.width
  let otherDepth := jsOrOne other.depth
  decide (|building.x - other.x| < (buildingWidth + otherWidth) / 2) &&
    decide (|building.z - other.z| < (buildingDepth + otherDepth) / 2)

/-- MapSystem.tsx `checkBuildingCollision`: does `building` strictly overlap
any element of `otherBuildings`? -/
def checkBuildingCollision (building : BuildingData)
    (otherBuildings : List BuildingData) : Bool :=
  otherBuildings.any fun other => overlapsPair building other

/-- JavaScript `buildings.slice(0, index).concat(buildings.slice(index + 1))`:
the list with the entry at `index` removed. -/
def withoutIndex (buildings : List BuildingData) (index : Nat) :
    List BuildingData :=
  buildings.take index ++ buildings.drop (index + 1)

/-- MapSystem.tsx `collidingBuildings`: the placements that strictly overlap
at least one other placement (comparison excludes only the own list index). -/
def collidingBuildings (buildings : List BuildingData) : List BuildingData :=
  (buildings.enum.filter fun p =>
      checkBuildingCollision p.2 (withoutIndex buildings p.1)).map Prod.snd

/-- Dimension of a placement as the spec words it: the supplied value, 1 when
absent. -/
def defDim (o : Option ℚ) : ℚ := o.getD 1

theorem jsOrOne_eq_defDim {o : Option ℚ} (h : 0 < defDim o) :
    jsOrOne o = defDim o := by
  cases o with
  | none => rfl
  | some q =>
    simp only [defDim, Option.getD_some] at h ⊢
    simp [jsOrOne, ne_of_gt h]

theorem overlapsPair_eq_true_iff (building other : BuildingData)
    (h1 : 0 < defDim building.width) (h2 : 0 < defDim building.depth)
    (h3 : 0 < defDim other.width) (h4 : 0 < defDim other.depth) :
    overlapsPair building other = true ↔
      |building.x - other.x| < (defDim building.width + defDim other.width) / 2 ∧
      |building.z - other.z| < (defDim building.depth + defDim other.depth) / 2 := by
  simp only [overlapsPair, Bool.and_eq_true, decide_eq_true_eq,
    jsOrOne_eq_defDim h1, jsOrOne_eq_defDim h2, jsOrOne_eq_defDim h3,
    jsOrOne_eq_defDim h4]

/-- Claim C1 — on any pair of placements whose supplied dimensions are
positive (the data-model invariant), the validator reports overlap exactly
when `|Δx| < (wP+wO)/2` and `|Δz| < (dP+dO)/2` with width/depth defaulting
to 1 when absent; touching edges (`|Δx| = (wP+wO)/2`) are not reported
colliding, while a strictly smaller x-distance at equal z is reported. -/
theorem collision_strict_aabb_iff (P O : BuildingData)
    (h1 : 0 < defDim P.width) (h2 : 0 < defDim P.depth)
    (h3 : 0 < defDim O.width) (h4 : 0 < defDim O.depth) :
    (checkBuildingCollision P [O] = true ↔
      |P.x - O.x| < (defDim P.width + defDim O.width) / 2 ∧
      |P.z - O.z| < (defDim P.depth + defDim O.depth) / 2) ∧
    (|P.x - O.x| = (defDim P.width + defDim O.width) / 2 →
      checkBuildingCollision P [O] = false) ∧
    (P.z = O.z → |P.x - O.x| < (defDim P.width + defDim O.width) / 2 →
      checkBuildingCollision P [O] = true) := by
  have hiff : checkBuildingCollision P [O] = true ↔
      |P.x - O.x| < (defDim P.width + defDim O.width) / 2 ∧
      |P.z - O.z| < (defDim P.depth + defDim O.depth) / 2 := by
    rw [← overlapsPair_eq_true_iff P O h1 h2 h3 h4]
    simp [checkBuildingCollision]
  refine ⟨hiff, ?_, ?_⟩
  · intro heq
    rcases Bool.eq_false_or_eq_true (checkBuildingCollision P [O]) with ht | hf
    · exact absurd ((hiff.mp ht).1) (by rw [heq]; exact lt_irrefl _)
    · exact hf
  · intro hz hx
    refine hiff.mpr ⟨hx, ?_⟩
    rw [hz, sub_self, abs_zero]
    exact div_pos (add_pos h2 h4) two_pos

/-- Witness for C1 at the spec scenarios: `{x:10,z:10}` vs `{x:10.4,z:10}`
(unit footprints) collide, while `{x:10,z:10}` vs `{x:11,z:10}` touch and do
not. -/
theorem collision_strict_aabb_iff_witness :
    checkBuildingCollision ⟨10, 10, some 1, some 1⟩ [⟨10.4, 10, some 1, some 1⟩] = true ∧
    checkBuildingCollision ⟨10, 10, some 1, some 1⟩ [⟨11, 10, some 1, some 1⟩] = false := by
  constructor
  · exact (collision_strict_aabb_iff ⟨10, 10, some 1, some 1⟩ ⟨10.4, 10, some 1, some 1⟩
      (by norm_num [defDim]) (by norm_num [defDim]) (by norm_num [defDim])
      (by norm_num [defDim])).2.2 rfl (by norm_num [defDim, abs_lt])
  · exact (collision_strict_aabb_iff ⟨10, 10, some 1, some 1⟩ ⟨11, 10, some 1, some 1⟩
      (by norm_num [defDim]) (by norm_num [defDim]) (by norm_num [defDim])
      (by norm_num [defDim])).2.1 (by norm_num [defDim, abs_sub_comm])

theorem overlapsPair_comm (a b : BuildingData) :
    overlapsPair a b = overlapsPair b a := by
  simp only [overlapsPair]
  rw [abs_sub_comm a.x b.x, abs_sub_comm a.z b.z,
    add_comm (jsOrOne a.width) (jsOrOne b.width),
    add_comm (jsOrOne a.depth) (jsOrOne b.depth)]

/-- Claim C4 — collision reporting is symmetric: the pairwise test agrees
both ways, a singleton comparison agrees both ways, and on a two-element
placement list the validator reports either both placements or neither. -/
theorem collision_symmetric (A B : BuildingData) :
    overlapsPair A B = overlapsPair B A ∧
    checkBuildingCollision A [B] = checkBuildingCollision B [A] ∧
    (collidingBuildings [A, B] = [] ∨ collidingBuildings [A, B] = [A, B]) := by
  have hsymm := overlapsPair_comm A B
  refine ⟨hsymm, ?_, ?_⟩
  · simp [checkBuildingCollision, hsymm]
  · have h' : overlapsPair B A = overlapsPair A B := hsymm.symm
    rcases Bool.eq_false_or_eq_true (overlapsPair A B) with h | h
    · right
      simp [collidingBuildings, List.enum, List.enumFrom, withoutIndex,
        checkBuildingCollision, h, h'.trans h]
    · left
      simp [collidingBuildings, List.enum, List.enumFrom, withoutIndex,
        checkBuildingCollision, h, h'.trans h]

theorem checkCollision_congr (b b' : BuildingData) (hx : b.x = b'.x)
    (hz : b.z = b'.z) (hw : jsOrOne b.width = jsOrOne b'.width)
    (hd : jsOrOne b.depth = jsOrOne b'.depth) (a : BuildingData)
    (others : List BuildingData) :
    checkBuildingCollision b others = checkBuildingCollision b' others ∧
    checkBuildingCollision a (b :: others) =
      checkBuildingCollision a (b' :: others) := by
  have hpair : ∀ c : BuildingData, overlapsPair b c = overlapsPair b' c := by
    intro c
    simp only [overlapsPair, hx, hz, hw, hd]
  have hpair' : overlapsPair a b = overlapsPair a b' := by
    simp only [overlapsPair, hx, hz, hw, hd]
  constructor
  · simp only [checkBuildingCollision]
    induction others with
    | nil => rfl
    | cons c cs ih => simp only [List.any_cons, ih, hpair c]
  · simp [checkBuildingCollision, hpair']

/-- Claim C8 — each omitted dimension behaves exactly like an explicitly
supplied value of 1 for that dimension: when only `width` is absent, when
only `depth` is absent, and when both are, the collision result is unchanged
by supplying 1 explicitly for the missing value(s) — whether the placement
is the one under test or one of the others it is tested against (and the
embedding is total: omission is never an error). -/
theorem omitted_dims_default_to_one (b a : BuildingData)
    (others : List BuildingData) :
    (b.width = none →
      checkBuildingCollision b others =
        checkBuildingCollision { b with width := some 1 } others ∧
      checkBuildingCollision a (b :: others) =
        checkBuildingCollision a ({ b with width := some 1 } :: others)) ∧
    (b.depth = none →
      checkBuildingCollision b others =
        checkBuildingCollision { b with depth := some 1 } others ∧
      checkBuildingCollision a (b :: others) =
        checkBuildingCollision a ({ b with depth := some 1 } :: others)) ∧
    (b.width = none → b.depth = none →
      checkBuildingCollision b others =
        checkBuildingCollision { b with width := some 1, depth := some 1 } others ∧
      checkBuildingCollision a (b :: others) =
        checkBuildingCollision a ({ b with width := some 1, depth := some 1 } :: others)) := by
  refine ⟨?_, ?_, ?_⟩
  · intro hw
    exact checkCollision_congr b { b with width := some 1 } rfl rfl
      (by rw [hw]; norm_num [jsOrOne]) rfl a others
  · intro hd
    exact checkCollision_congr b { b with depth := some 1 } rfl rfl rfl
      (by rw [hd]; norm_num [jsOrOne]) a others
  · intro hw hd
    exact checkCollision_congr b { b with width := some 1, depth := some 1 }
      rfl rfl (by rw [hw]; norm_num [jsOrOne]) (by rw [hd]; norm_num [jsOrOne])
      a others

/-- Witness for C8 at concrete placements: omitting only `width`, only
`depth`, or both gives the same answer as supplying 1 explicitly, in subject
position and in others position. -/
theorem omitted_dims_default_to_one_witness :
    checkBuildingCollision ⟨0, 0, none, some 2⟩ [⟨0.6, 0, some 1, some 1⟩] =
      checkBuildingCollision ⟨0, 0, some 1, some 2⟩ [⟨0.6, 0, some 1, some 1⟩] ∧
    checkBuildingCollision ⟨0, 0, some 2, none⟩ [⟨0.6, 0, some 1, some 1⟩] =
      checkBuildingCollision ⟨0, 0, some 2, some 1⟩ [⟨0.6, 0, some 1, some 1⟩] ∧
    checkBuildingCollision ⟨0.6, 0, some 1, some 1⟩ [⟨0, 0, none, none⟩] =
      checkBuildingCollision ⟨0.6, 0, some 1, some 1⟩ [⟨0, 0, some 1, some 1⟩] := by
  refine ⟨?_, ?_, ?_⟩
  · exact ((omitted_dims_default_to_one ⟨0, 0, none, some 2⟩
      ⟨0.6, 0, some 1, some 1⟩ [⟨0.6, 0, some 1, some 1⟩]).1 rfl).1
  · exact ((omitted_dims_default_to_one ⟨0, 0, some 2, none⟩
      ⟨0.6, 0, some 1, some 1⟩ [⟨0.6, 0, some 1, some 1⟩]).2.1 rfl).1
  · exact ((omitted_dims_default_to_one ⟨0, 0, none, none⟩
      ⟨0.6, 0, some 1, some 1⟩ []).2.2 rfl rfl).2

theorem mem_withoutIndex {l : List BuildingData} {i j : Nat} {A : BuildingData}
    (hij : j ≠ i) (hj : l[j]? = some A) : A ∈ withoutIndex l i := by
  unfold withoutIndex
  rcases Nat.lt_or_ge j i with hlt | hge
  · have htake : (l.take i)[j]? = some A := by
      rw [List.getElem?_take, if_pos hlt]
      exact hj
    exact List.mem_append.mpr (Or.inl (List.getElem?_mem htake))
  · have hgt : i + 1 ≤ j := Nat.succ_le_of_lt (lt_of_le_of_ne hge (Ne.symm hij))
    have hdrop : (l.drop (i + 1))[j - (i + 1)]? = some A := by
      rw [List.getElem?_drop, Nat.add_sub_cancel' hgt]
      exact hj
    exact List.mem_append.mpr (Or.inr (List.getElem?_mem hdrop))

theorem overlapsPair_self {A : BuildingData} (hw : 0 < jsOrOne A.width)
    (hd : 0 < jsOrOne A.depth) : overlapsPair A A = true := by
  simp only [overlapsPair, Bool.and_eq_true, decide_eq_true_eq, sub_self, abs_zero]
  exact ⟨div_pos (add_pos hw hw) two_pos, div_pos (add_pos hd hd) two_pos⟩

/-- Claim C9 — self-comparison is excluded by list index, not by value: a
placement at index `i` is checked against the list with index `i` removed
(one element shorter), so two value-identical placements at distinct indices
are each compared against the other copy, both indices pass the check, and
the shared value appears in the collision report. -/
theorem duplicate_placements_collide (l : List BuildingData) (i j : Nat)
    (A : BuildingData) (hij : i ≠ j) (hi : l[i]? = some A) (hj : l[j]? = some A)
    (hw : 0 < jsOrOne A.width) (hd : 0 < jsOrOne A.depth) :
    (withoutIndex l i).length = l.length - 1 ∧
    checkBuildingCollision A (withoutIndex l i) = true ∧
    checkBuildingCollision A (withoutIndex l j) = true ∧
    A ∈ collidingBuildings l := by
  have hilen : i < l.length := by
    by_contra hc
    rw [List.getElem?_eq_none (Nat.le_of_not_lt hc)] at hi
    exact Option.noConfusion hi
  have hself := overlapsPair_self hw hd
  have hcheck : ∀ m n : Nat, m ≠ n → l[n]? = some A →
      checkBuildingCollision A (withoutIndex l m) = true := by
    intro m n hmn hn
    refine List.any_eq_true.mpr ⟨A, mem_withoutIndex (Ne.symm hmn) hn, hself⟩
  refine ⟨?_, hcheck i j hij hj, hcheck j i (Ne.symm hij) hi, ?_⟩
  · unfold withoutIndex
    rw [List.length_append, List.length_take, List.length_drop,
      min_eq_left (le_of_lt hilen)]
    omega
  · refine List.mem_map.mpr ⟨(i, A), ?_, rfl⟩
    refine List.mem_filter.mpr ⟨?_, ?_⟩
    · exact List.mk_mem_enum_iff_getElem?.mpr hi
    · exact hcheck i j hij hj

/-- Witness for C9 on the two-copy list `[{x:10,z:10,w:1,d:1}] × 2`. -/
theorem duplicate_placements_collide_witness :
    checkBuildingCollision ⟨10, 10, some 1, some 1⟩
      (withoutIndex [⟨10, 10, some 1, some 1⟩, ⟨10, 10, some 1, some 1⟩] 0) = true ∧
    (⟨10, 10, some 1, some 1⟩ : BuildingData) ∈
      collidingBuildings [⟨10, 10, some 1, some 1⟩, ⟨10, 10, some 1, some 1⟩] := by
  have h := duplicate_placements_collide
    [⟨10, 10, some 1, some 1⟩, ⟨10, 10, some 1, some 1⟩] 0 1 ⟨10, 10, some 1, some 1⟩
    (by decide) rfl rfl (by norm_num [jsOrOne]) (by norm_num [jsOrOne])
  exact ⟨h.2.1, h.2.2.2⟩

/-! Geometry generator embedding (BuildingScene, `src/unnamed/part_000`).
Each emitted `LineSegments` box outline is modelled as a `Prim` carrying the
`BoxGeometry` dimensions, the world position and the material color. -/

structure WindowCount where
  front : Nat
  side : Nat
deriving DecidableEq, Repr

structure WindowConfig where
  width : ℚ
  height : ℚ
  spacing : ℚ
  countPerWall : WindowCount
deriving DecidableEq, Repr

structure DividerConfig where
  enabled : Bool
  height : ℚ
  overhang : ℚ
deriving DecidableEq, Repr

structure FloorConfig where
  windows : WindowConfig
  divider : DividerConfig
  decorativeLines : Bool
deriving DecidableEq, Repr

structure TrimConfig where
  height : ℚ
  overhang : ℚ
deriving DecidableEq, Repr

structure StageSize where
  width : ℚ
  depth : ℚ
  height : ℚ
deriving DecidableEq, Repr

structure TowerConfig where
  base : StageSize
  main : StageSize
  top : StageSize
  spire : StageSize
deriving DecidableEq, Repr

structure ParapetConfig where
  height : ℚ
  thickness : ℚ
  topTrim : TrimConfig
deriving DecidableEq, Repr

structure RoofConfig where
  width : ℚ
  depth : ℚ
  height : ℚ
  trim : TrimConfig
  tower : TowerConfig
  parapet : ParapetConfig
deriving DecidableEq, Repr

structure ColumnsConfig where
  enabled : Bool
  count : Nat
  width : ℚ
  depth : ℚ
deriving DecidableEq, Repr

structure BaseDecorConfig where
  enabled : Bool
  height : ℚ
  overhang : ℚ
deriving DecidableEq, Repr

structure BaseConfig where
  width : ℚ
  depth : ℚ
  height : ℚ
  decorativeLines : BaseDecorConfig
  columns : ColumnsConfig
deriving DecidableEq, Repr

structure BuildingConfig where
  width : ℚ
  depth : ℚ
  floorHeight : ℚ
  numFloors : Nat
  floors : List FloorConfig
  base : BaseConfig
  roof : RoofConfig
deriving DecidableEq, Repr

/-- One generated box-outline primitive: `BoxGeometry` dimensions, world
position, render color. -/
structure Prim where
  width : ℚ
  height : ℚ
  depth : ℚ
  x : ℚ
  y : ℚ
  z : ℚ
  color : Nat
deriving DecidableEq, Repr

/-- Material color used for every outline: `0x000000`. -/
def black : Nat := 0

/-- Center y plus half height: the top face of a box primitive. -/
def stageTop (p : Prim) : ℚ := p.y + p.height / 2

/-- Center y minus half height: the bottom face of a box primitive. -/
def stageBottom (p : Prim) : ℚ := p.y - p.height / 2

/-- Reflection of a primitive about the `z = 0` centerline: only the z
coordinate is negated. -/
def mirrorZ (p : Prim) : Prim := { p with z := -p.z }

/-- Reflection of a primitive about the `x = 0` centerline: only the x
coordinate is negated. -/
def mirrorX (p : Prim) : Prim := { p with x := -p.x }

/-- Main base platform: `BoxGeometry(base.width, base.height, base.depth)`
at `y = -base.height / 2`. -/
def baseLine (base : BaseConfig) : Prim :=
  ⟨base.width, base.height, base.depth, 0, -base.height / 2, 0, black⟩

/-- Middle base layer: `base.width - 1 × base.height*0.3 × base.depth - 1` at
`y = 0`. -/
def middleLayerLine (base : BaseConfig) : Prim :=
  ⟨base.width - 1, base.height * 0.3, base.depth - 1, 0, 0, 0, black⟩

/-- Top decorative base trim: `base.width - 2 × base.height*0.2 ×
base.depth - 2` at `y = base.height * 0.25`. -/
def topTrimLine (base : BaseConfig) : Prim :=
  ⟨base.width - 2, base.height * 0.2, base.depth - 2, 0, base.height * 0.25, 0, black⟩

/-- The three base-stack primitives in construction order. -/
def basePrims (base : BaseConfig) : List Prim :=
  [baseLine base, middleLayerLine base, topTrimLine base]

/-- Cumulative building height where the roof construction starts:
`numFloors * floorHeight`. -/
def roofBaseY (bc : BuildingConfig) : ℚ := bc.numFloors * bc.floorHeight

/-- Main roof platform. -/
def roofLine (bc : BuildingConfig) : Prim :=
  ⟨bc.roof.width, bc.roof.height, bc.roof.depth, 0,
    roofBaseY bc + bc.roof.height / 2, 0, black⟩

/-- Roof trim, outset by `trim.overhang` on each side. -/
def roofTrimLine (bc : BuildingConfig) : Prim :=
  ⟨bc.roof.width + bc.roof.trim.overhang * 2, bc.roof.trim.height,
    bc.roof.depth + bc.roof.trim.overhang * 2, 0,
    roofBaseY bc + bc.roof.height + bc.roof.trim.height / 2, 0, black⟩

/-- Tower base stage. -/
def towerBaseLine (bc : BuildingConfig) : Prim :=
  ⟨bc.roof.tower.base.width, bc.roof.tower.base.height, bc.roof.tower.base.depth, 0,
    roofBaseY bc + bc.roof.height + bc.roof.tower.base.height / 2, 0, black⟩

/-- Tower main body stage. -/
def towerLine (bc : BuildingConfig) : Prim :=
  ⟨bc.roof.tower.main.width, bc.roof.tower.main.height, bc.roof.tower.main.depth, 0,
    roofBaseY bc + bc.roof.height + bc.roof.tower.base.height +
      bc.roof.tower.main.height / 2, 0, black⟩

/-- Tower top stage. -/
def towerTopLine (bc : BuildingConfig) : Prim :=
  ⟨bc.roof.tower.top.width, bc.roof.tower.top.height, bc.roof.tower.top.depth, 0,
    roofBaseY bc + bc.roof.height + bc.roof.tower.base.height +
      bc.roof.tower.main.height + bc.roof.tower.top.height / 2, 0, black⟩

/-- Tower spire stage. -/
def spireLine (bc : BuildingConfig) : Prim :=
  ⟨bc.roof.tower.spire.width, bc.roof.tower.spire.height, bc.roof.tower.spire.depth, 0,
    roofBaseY bc + bc.roof.height + bc.roof.tower.base.height +
      bc.roof.tower.main.height + bc.roof.tower.top.height +
      bc.roof.tower.spire.height / 2, 0, black⟩

/-- The six roof-stack primitives in construction order: roof slab, roof
trim, tower base, tower main, tower top, spire. -/
def roofStack (bc : BuildingConfig) : List Prim :=
  [roofLine bc, roofTrimLine bc, towerBaseLine bc, towerLine bc,
    towerTopLine bc, spireLine bc]

/-- Front parapet, at `z = roof.depth / 2`. -/
def frontParapetLine (bc : BuildingConfig) : Prim :=
  ⟨bc.roof.width, bc.roof.parapet.height, bc.roof.parapet.thickness, 0,
    roofBaseY bc + bc.roof.height + bc.roof.parapet.height / 2,
    bc.roof.depth / 2, black⟩

/-- Front parapet top trim. -/
def frontParapetTopLine (bc : BuildingConfig) : Prim :=
  ⟨bc.roof.width + bc.roof.parapet.topTrim.overhang * 2,
    bc.roof.parapet.topTrim.height,
    bc.roof.parapet.thickness + bc.roof.parapet.topTrim.overhang * 2, 0,
    roofBaseY bc + bc.roof.height + bc.roof.parapet.height +
      bc.roof.parapet.topTrim.height / 2,
    bc.roof.depth / 2, black⟩

/-- Back parapet: clone of the front parapet with `z` overwritten to
`-roof.depth / 2`. -/
def backParapetLine (bc : BuildingConfig) : Prim :=
  { frontParapetLine bc with z := -bc.roof.depth / 2 }

/-- Back parapet top trim: clone of the front one with `z` overwritten. -/
def backParapetTopLine (bc : BuildingConfig) : Prim :=
  { frontParapetTopLine bc with z := -bc.roof.depth / 2 }

/-- Left parapet (the source names the `x = +roof.width / 2` one "left"). -/
def leftParapetLine (bc : BuildingConfig) : Prim :=
  ⟨bc.roof.parapet.thickness, bc.roof.parapet.height, bc.roof.depth,
    bc.roof.width / 2,
    roofBaseY bc + bc.roof.height + bc.roof.parapet.height / 2, 0, black⟩

/-- Left parapet top trim. -/
def leftParapetTopLine (bc : BuildingConfig) : Prim :=
  ⟨bc.roof.parapet.thickness + bc.roof.parapet.topTrim.overhang * 2,
    bc.roof.parapet.topTrim.height,
    bc.roof.depth + bc.roof.parapet.topTrim.overhang * 2,
    bc.roof.width / 2,
    roofBaseY bc + bc.roof.height + bc.roof.parapet.height +
      bc.roof.parapet.topTrim.height / 2, 0, black⟩

/-- Right parapet: clone of the left parapet with `x` overwritten to
`-roof.width / 2`. -/
def rightParapetLine (bc : BuildingConfig) : Prim :=
  { leftParapetLine bc with x := -bc.roof.width / 2 }

/-- Right parapet top trim: clone of the left one with `x` overwritten. -/
def rightParapetTopLine (bc : BuildingConfig) : Prim :=
  { leftParapetTopLine bc with x := -bc.roof.width / 2 }

/-- Front-wall window assembly for floor `i`, window index `j`: frame, pane,
vertical divider, horizontal divider, all at `windowX/windowY/windowZ` from
the source. -/
def frontWindowAssembly (bc : BuildingConfig) (windows : WindowConfig)
    (i j : Nat) : List Prim :=
  let windowX : ℚ := -bc.width / 2 + windows.spacing + j * (windows.width + windows.spacing)
  let windowY : ℚ := i * bc.floorHeight + windows.height / 2
  let windowZ : ℚ := bc.depth / 2
  [⟨windows.width + 0.2, windows.height + 0.2, 0.1, windowX, windowY, windowZ, black⟩,
    ⟨windows.width, windows.height, 0.05, windowX, windowY, windowZ, black⟩,
    ⟨0.05, windows.height, 0.05, windowX, windowY, windowZ, black⟩,
    ⟨windows.width, 0.05, 0.05, windowX, windowY, windowZ, black⟩]

/-- Back-wall window assembly: each front part cloned with `position.z`
overwritten to `-depth / 2`. -/
def backWindowAssembly (bc : BuildingConfig) (windows : WindowConfig)
    (i j : Nat) : List Prim :=
  (frontWindowAssembly bc windows i j).map fun p => { p with z := -bc.depth / 2 }

/-- Left-side window assembly for floor `i`, window index `j` (axes swapped
relative to the front wall; the wall sits at `x = -width / 2`). -/
def sideWindowAssembly (bc : BuildingConfig) (windows : WindowConfig)
    (i j : Nat) : List Prim :=
  let windowX : ℚ := -bc.width / 2
  let windowY : ℚ := i * bc.floorHeight + windows.height / 2
  let windowZ : ℚ := -bc.depth / 2 + windows.spacing + j * (windows.width + windows.spacing)
  [⟨0.1, windows.height + 0.2, windows.width + 0.2, windowX, windowY, windowZ, black⟩,
    ⟨0.05, windows.height, windows.width, windowX, windowY, windowZ, black⟩,
    ⟨0.05, windows.height, 0.05, windowX, windowY, windowZ, black⟩,
    ⟨0.05, 0.05, windows.width, windowX, windowY, windowZ, black⟩]

/-- Right-side window assembly: each left part cloned with `position.x`
overwritten to `width / 2`. -/
def rightWindowAssembly (bc : BuildingConfig) (windows : WindowConfig)
    (i j : Nat) : List Prim :=
  (sideWindowAssembly bc windows i j).map fun p => { p with x := bc.width / 2 }

/-- All assemblies of the front and back window loop of one floor: list of
per-index groups, each group the four front parts then the four back parts. -/
def frontBackWindowPrims (bc : BuildingConfig) (windows : WindowConfig)
    (i : Nat) : List Prim :=
  (List.range windows.countPerWall.front).flatMap fun j =>
    frontWindowAssembly bc windows i j ++ backWindowAssembly bc windows i j

/-- All assemblies of the side window loop of one floor. -/
def sideWindowPrims (bc : BuildingConfig) (windows : WindowConfig)
    (i : Nat) : List Prim :=
  (List.range windows.countPerWall.side).flatMap fun j =>
    sideWindowAssembly bc windows i j ++ rightWindowAssembly bc windows i j

/-- Front divider accent block `j` (of 8) above floor `i`, on the front edge
`z = depth / 2 + overhang`. -/
def accentLine (bc : BuildingConfig) (divider : DividerConfig) (i j : Nat) : Prim :=
  let accentSpacing : ℚ := (bc.width + divider.overhang) / (8 - 1)
  ⟨divider.height * 0.5, divider.height * 4, divider.height * 0.5,
    -bc.width / 2 - divider.overhang + j * accentSpacing,
    (i + 1) * bc.floorHeight,
    bc.depth / 2 + divider.overhang, black⟩

/-- Back divider accent: clone of the front accent with `z` overwritten to
`-depth / 2 - overhang`. -/
def backAccentLine (bc : BuildingConfig) (divider : DividerConfig) (i j : Nat) : Prim :=
  { accentLine bc divider i j with z := -bc.depth / 2 - divider.overhang }

/-- Left side divider accent block `j` (of 6) above floor `i`. -/
def leftAccentLine (bc : BuildingConfig) (divider : DividerConfig) (i j : Nat) : Prim :=
  let sideAccentSpacing : ℚ := (bc.depth + divider.overhang) / (6 - 1)
  ⟨divider.height * 0.5, divider.height * 4, divider.height * 0.5,
    -bc.width / 2 - divider.overhang,
    (i + 1) * bc.floorHeight,
    -bc.depth / 2 - divider.overhang + j * sideAccentSpacing, black⟩

/-- Right side divider accent: clone of the left accent with `x` overwritten
to `width / 2 + overhang`. -/
def rightAccentLine (bc : BuildingConfig) (divider : DividerConfig) (i j : Nat) : Prim :=
  { leftAccentLine bc divider i j with x := bc.width / 2 + divider.overhang }

/-- Window configuration shared by all twelve floors of the source
`buildingConfig`. -/
def srcWindows : WindowConfig :=
  { width := 1.8, height := 2.2, spacing := 3.8,
    countPerWall := { front := 5, side := 3 } }

/-- Source `buildingConfig` literal of BuildingScene
(`src/unnamed/part_000`, lines 92-169). -/
def buildingConfig : BuildingConfig :=
  { width := 25
    depth := 18
    floorHeight := 3.2
    numFloors := 12
    floors := List.replicate 12
      { windows := srcWindows
        divider := { enabled := true, height := 0.25, overhang := 0.3 }
        decorativeLines := true }
    base :=
      { width := 28, depth := 21, height := 2.2
        decorativeLines := { enabled := true, height := 0.18, overhang := 0.2 }
        columns := { enabled := true, count := 4, width := 0.9, depth := 0.9 } }
    roof :=
      { width := 21.25, depth := 15.3, height := 2.5
        trim := { height := 0.3, overhang := 0.25 }
        tower :=
          { base := ⟨8, 8, 1⟩, main := ⟨6, 6, 4⟩, top := ⟨7, 7, 1.5⟩,
            spire := ⟨2, 2, 2⟩ }
        parapet :=
          { height := 1.2, thickness := 0.15,
            topTrim := { height := 0.3, overhang := 0.15 } } } }

/-- Counterexample to claim C2 at the source configuration: the tower base
(third roof-stack stage) is NOT centered at the roof trim's top plus half
its own height — the chain stated by the claim breaks at the trim → tower
base step (41.4 versus 41.7). -/
theorem roof_stack_chain_counterexample :
    ¬ (towerBaseLine buildingConfig).y =
        stageTop (roofTrimLine buildingConfig) +
          (towerBaseLine buildingConfig).height / 2 := by
  norm_num [towerBaseLine, roofTrimLine, stageTop, roofBaseY, buildingConfig]

/-- Claim C2, amended — in the roof stack (slab, trim, tower base, main,
top, spire) each stage after the first is centered at the previous stage's
top plus half its own height, EXCEPT the tower base, which is centered at
the roof slab's top plus half its own height (the tower ignores the trim
band and overlaps it whenever `trim.height > 0`). -/
theorem roof_stack_stacking (bc : BuildingConfig) :
    (roofTrimLine bc).y = stageTop (roofLine bc) + (roofTrimLine bc).height / 2 ∧
    (towerBaseLine bc).y = stageTop (roofLine bc) + (towerBaseLine bc).height / 2 ∧
    (towerLine bc).y = stageTop (towerBaseLine bc) + (towerLine bc).height / 2 ∧
    (towerTopLine bc).y = stageTop (towerLine bc) + (towerTopLine bc).height / 2 ∧
    (spireLine bc).y = stageTop (towerTopLine bc) + (spireLine bc).height / 2 ∧
    (stageBottom (towerBaseLine bc) = stageTop (roofLine bc) ∧
      stageTop (roofTrimLine bc) - stageBottom (towerBaseLine bc) = bc.roof.trim.height) := by
  refine ⟨?_, ?_, ?_, ?_, ?_, ?_, ?_⟩ <;>
    simp only [roofLine, roofTrimLine, towerBaseLine, towerLine, towerTopLine,
      spireLine, stageTop, stageBottom] <;> ring

/-- Counterexample to claim C5 at the source configuration: a base-stack
primitive (the top trim) extends above `y = 0` — its top face is at
`0.35 * 2.2 = 0.77`. -/
theorem base_stack_counterexample :
    ∃ p ∈ basePrims buildingConfig.base, 0 < stageTop p := by
  refine ⟨topTrimLine buildingConfig.base, ?_, ?_⟩
  · simp [basePrims]
  · norm_num [topTrimLine, stageTop, buildingConfig]

/-- Claim C5, amended — only the outer platform sits below floor 0 (spanning
`[-height, 0]`, its top touching `y = 0`); the middle layer is centered at
`y = 0` and reaches `0.15 * height` above it, and the top trim spans
`[0.15 * height, 0.35 * height]`, entirely above floor 0. -/
theorem base_stack_layout (base : BaseConfig) (hpos : 0 < base.height) :
    stageTop (baseLine base) = 0 ∧
    stageBottom (baseLine base) = -base.height ∧
    (middleLayerLine base).y = 0 ∧
    stageTop (middleLayerLine base) = 0.15 * base.height ∧
    stageBottom (topTrimLine base) = 0.15 * base.height ∧
    stageTop (topTrimLine base) = 0.35 * base.height ∧
    0 < stageTop (middleLayerLine base) ∧
    0 < stageBottom (topTrimLine base) := by
  have h1 : stageTop (middleLayerLine base) = 0.15 * base.height := by
    simp only [middleLayerLine, stageTop]; ring
  have h2 : stageBottom (topTrimLine base) = 0.15 * base.height := by
    simp only [topTrimLine, stageBottom]; ring
  have h3 : (0 : ℚ) < 0.15 * base.height := by nlinarith
  refine ⟨?_, ?_, rfl, h1, h2, ?_, h1 ▸ h3, h2 ▸ h3⟩ <;>
    simp only [baseLine, topTrimLine, stageTop, stageBottom] <;> ring

/-- Witness for the amended C5 at the source base configuration
(`height = 2.2`). -/
theorem base_stack_layout_witness :
    0 < buildingConfig.base.height ∧
    stageTop (baseLine buildingConfig.base) = 0 ∧
    stageTop (topTrimLine buildingConfig.base) = 0.35 * buildingConfig.base.height :=
  ⟨by norm_num [buildingConfig],
    (base_stack_layout buildingConfig.base (by norm_num [buildingConfig])).1,
    (base_stack_layout buildingConfig.base (by norm_num [buildingConfig])).2.2.2.2.2.1⟩

/-- Claim C3 — every mirrored family the generator emits (back windows,
back divider accents, right side windows, right side accents, back/right
parapets and their top trims) equals its front/left counterpart with exactly
one coordinate negated about the building centerline; all other fields
(dimensions, color, the two remaining coordinates) are identical. -/
theorem mirrored_primitives (bc : BuildingConfig) (windows : WindowConfig)
    (divider : DividerConfig) (i j : Nat) :
    backWindowAssembly bc windows i j = (frontWindowAssembly bc windows i j).map mirrorZ ∧
    rightWindowAssembly bc windows i j = (sideWindowAssembly bc windows i j).map mirrorX ∧
    backAccentLine bc divider i j = mirrorZ (accentLine bc divider i j) ∧
    rightAccentLine bc divider i j = mirrorX (leftAccentLine bc divider i j) ∧
    backParapetLine bc = mirrorZ (frontParapetLine bc) ∧
    backParapetTopLine bc = mirrorZ (frontParapetTopLine bc) ∧
    rightParapetLine bc = mirrorX (leftParapetLine bc) ∧
    rightParapetTopLine bc = mirrorX (leftParapetTopLine bc) := by
  refine ⟨?_, ?_, ?_, ?_, ?_, ?_, ?_, ?_⟩ <;>
    simp only [backWindowAssembly, frontWindowAssembly, rightWindowAssembly,
      sideWindowAssembly, backAccentLine, accentLine, rightAccentLine,
      leftAccentLine, backParapetLine, frontParapetLine, backParapetTopLine,
      frontParapetTopLine, rightParapetLine, leftParapetLine,
      rightParapetTopLine, leftParapetTopLine, mirrorZ, mirrorX,
      List.map_cons, List.map_nil, Prim.mk.injEq, and_true, true_and] <;>
    norm_num <;> ring

/-- Claim C6 — the front/back window loop of any floor runs exactly
`countPerWall.front` times: there are `countPerWall.front` front-wall
assemblies, as many back-wall assemblies, and `8 * countPerWall.front`
window primitives in total (4 front parts plus 4 mirrored back parts per
index). -/
theorem window_count_fidelity (bc : BuildingConfig) (windows : WindowConfig)
    (i : Nat) :
    ((List.range windows.countPerWall.front).map
        (frontWindowAssembly bc windows i)).length = windows.countPerWall.front ∧
    ((List.range windows.countPerWall.front).map
        (backWindowAssembly bc windows i)).length =
      ((List.range windows.countPerWall.front).map
        (frontWindowAssembly bc windows i)).length ∧
    (frontBackWindowPrims bc windows i).length = 8 * windows.countPerWall.front := by
  refine ⟨by simp, by simp, ?_⟩
  unfold frontBackWindowPrims
  induction windows.countPerWall.front with
  | zero => rfl
  | succ n ih =>
    rw [List.range_succ, List.flatMap_append, List.length_append, ih]
    simp [frontWindowAssembly, backWindowAssembly, Nat.mul_succ]

/-- Claim C7 — every part of the front-wall window assembly for floor `i`,
window `j` is positioned at
`x = -width/2 + spacing + j*(windowWidth + spacing)`,
`y = i*floorHeight + windowHeight/2`, `z = depth/2`. -/
theorem front_window_position (bc : BuildingConfig) (windows : WindowConfig)
    (i j : Nat) (p : Prim) (hp : p ∈ frontWindowAssembly bc windows i j) :
    p.x = -bc.width / 2 + windows.spacing + j * (windows.width + windows.spacing) ∧
    p.y = i * bc.floorHeight + windows.height / 2 ∧
    p.z = bc.depth / 2 := by
  simp only [frontWindowAssembly, List.mem_cons, List.not_mem_nil, or_false] at hp
  rcases hp with h | h | h | h <;> subst h <;> exact ⟨rfl, rfl, rfl⟩

/-- Witness for C7: the window frame of floor 0, window 0 of the source
configuration sits at `(-25/2 + 3.8, 1.1, 9)`. -/
theorem front_window_position_witness :
    ∃ p ∈ frontWindowAssembly buildingConfig srcWindows 0 0,
      p.x = -buildingConfig.width / 2 + srcWindows.spacing +
          (0 : Nat) * (srcWindows.width + srcWindows.spacing) ∧
      p.y = (0 : Nat) * buildingConfig.floorHeight + srcWindows.height / 2 ∧
      p.z = buildingConfig.depth / 2 := by
  have hmem : (⟨srcWindows.width + 0.2, srcWindows.height + 0.2, 0.1,
      -buildingConfig.width / 2 + srcWindows.spacing +
        ((0 : Nat) : ℚ) * (srcWindows.width + srcWindows.spacing),
      ((0 : Nat) : ℚ) * buildingConfig.floorHeight + srcWindows.height / 2,
      buildingConfig.depth / 2, black⟩ : Prim) ∈
        frontWindowAssembly buildingConfig srcWindows 0 0 :=
    List.mem_cons_self _ _
  exact ⟨_, hmem, front_window_position buildingConfig srcWindows 0 0 _ hmem⟩

/-! Column pass.  The spacing expression `(totalLength - width) / (count - 1)`
divides by zero when a side's count is 1, so the positions are computed in a
model of JavaScript number semantics restricted to the values that can occur
here: finite rationals, signed infinities and NaN. -/

/-- JavaScript double restricted to the values reachable by the column pass:
a finite rational, `±Infinity`, or `NaN`. -/
inductive JsNum where
  | num (q : ℚ)
  | inf (positive : Bool)
  | nan
deriving DecidableEq, Repr

/-- Finiteness test (`Number.isFinite`). -/
def JsNum.isFinite : JsNum → Bool
  | num _ => true
  | _ => false

/-- IEEE negation on the modelled values. -/
def JsNum.neg : JsNum → JsNum
  | num q => num (-q)
  | inf s => inf (!s)
  | nan => nan

/-- IEEE addition on the modelled values. -/
def JsNum.add : JsNum → JsNum → JsNum
  | nan, _ => nan
  | _, nan => nan
  | num a, num b => num (a + b)
  | num _, inf s => inf s
  | inf s, num _ => inf s
  | inf s, inf t => if s = t then inf s else nan

/-- IEEE multiplication on the modelled values (`0 * ±Infinity = NaN`). -/
def JsNum.mul : JsNum → JsNum → JsNum
  | nan, _ => nan
  | _, nan => nan
  | num a, num b => num (a * b)
  | num a, inf s => if a = 0 then nan else if 0 < a then inf s else inf (!s)
  | inf s, num a => if a = 0 then nan else if 0 < a then inf s else inf (!s)
  | inf s, inf t => if s = t then inf true else inf false

/-- IEEE division on the modelled values (`a / 0 = ±Infinity` for `a ≠ 0`,
`0 / 0 = NaN`; the denominator 0 is the positive zero). -/
def JsNum.div : JsNum → JsNum → JsNum
  | nan, _ => nan
  | _, nan => nan
  | num a, num b =>
      if b = 0 then (if a = 0 then nan else if 0 < a then inf true else inf false)
      else num (a / b)
  | num _, inf _ => num 0
  | inf s, num b => if 0 ≤ b then inf s else inf (!s)
  | inf _, inf _ => nan

instance : Neg JsNum := ⟨JsNum.neg⟩

instance : Add JsNum := ⟨JsNum.add⟩

instance : Sub JsNum := ⟨fun a b => JsNum.add a (JsNum.neg b)⟩

instance : Mul JsNum := ⟨JsNum.mul⟩

instance : Div JsNum := ⟨JsNum.div⟩

/-- Per-side column count: the configured count on the front/back (x-axis)
sides, `Math.floor(count * 0.75)` on the two z-axis sides. -/
def sideColumnCount (columns : ColumnsConfig) (side : Nat) : Nat :=
  if side % 2 = 0 then columns.count else 3 * columns.count / 4

/-- Column pass for one side (`side` in 0..3): the `(xPos, zPos)` world
positions of the column assemblies, with
`spacing = (totalLength - width) / (count - 1)` and
`pos = -totalLength/2 + i * spacing` computed in JavaScript arithmetic. -/
def sideColumnPositions (base : BaseConfig) (side : Nat) : List (JsNum × JsNum) :=
  let isXAxis := side % 2 = 0
  let isPositive := side < 2
  let count := sideColumnCount base.columns side
  let totalLength : ℚ := if isXAxis then base.width else base.depth
  let spacing : JsNum :=
    (JsNum.num totalLength - JsNum.num base.columns.width) /
      JsNum.num ((count : ℚ) - 1)
  (List.range count).map fun i =>
    let pos : JsNum := JsNum.num (-totalLength / 2) + JsNum.num (i : ℚ) * spacing
    (if isXAxis then pos
      else JsNum.num (if isPositive then base.width / 2 else -(base.width / 2)),
     if isXAxis then
        JsNum.num (if isPositive then base.depth / 2 else -(base.depth / 2))
      else pos)

/-- Full column pass: all four sides, emitted only when columns are
enabled. -/
def columnPositions (base : BaseConfig) : List (JsNum × JsNum) :=
  if base.columns.enabled then
    (List.range 4).flatMap fun side => sideColumnPositions base side
  else []

theorem first_pos_nan (len cw : ℚ) :
    JsNum.num (-len / 2) +
        JsNum.num ((0 : Nat) : ℚ) *
          ((JsNum.num len - JsNum.num cw) / JsNum.num ((1 : ℚ) - 1)) =
      JsNum.nan := by
  have hz : ((1 : ℚ) - 1) = 0 := by norm_num
  rw [hz]
  show JsNum.add _ (JsNum.mul _ (JsNum.div (JsNum.add _ _) _)) = JsNum.nan
  by_cases h : len + -cw = 0
  · simp [JsNum.add, JsNum.mul, JsNum.div, JsNum.neg, h]
  · by_cases h2 : 0 < len + -cw <;>
      simp [JsNum.add, JsNum.mul, JsNum.div, JsNum.neg, h, h2]

/-- Base configuration of the source with `columns.count` set to 2, used to
exhibit the degenerate side-wall spacing. -/
def baseCount2 : BaseConfig :=
  { buildingConfig.base with
      columns := { buildingConfig.base.columns with count := 2 } }

/-- Claim C10 — with `columns.count = 2` the side walls get
`floor(0.75 * 2) = 1` column, the spacing expression divides by zero, and
the emitted side-wall positions are NaN (non-finite); more generally, for
any enabled column configuration with `count ≥ 1`, whenever the reduced side
count `floor(0.75 * count)` is below 2 some emitted column position is
non-finite, so all four sides have finite positions only when
`floor(0.75 * count) ≥ 2`. -/
theorem column_positions_nonfinite :
    (sideColumnCount baseCount2.columns 1 = 1 ∧
      ∀ p ∈ sideColumnPositions baseCount2 1,
        (p.1.isFinite && p.2.isFinite) = false) ∧
    (∀ base : BaseConfig, base.columns.enabled = true →
      1 ≤ base.columns.count → 3 * base.columns.count / 4 < 2 →
      ∃ p ∈ columnPositions base, (p.1.isFinite && p.2.isFinite) = false) := by
  constructor
  · refine ⟨rfl, ?_⟩
    have hcnt : sideColumnCount baseCount2.columns 1 = 1 := rfl
    have hlist : sideColumnPositions baseCount2 1 =
        [(JsNum.num (baseCount2.width / 2),
          JsNum.num (-baseCount2.depth / 2) +
            JsNum.num ((0 : Nat) : ℚ) *
              ((JsNum.num baseCount2.depth - JsNum.num baseCount2.columns.width) /
                JsNum.num ((1 : ℚ) - 1)))] := by
      simp only [sideColumnPositions, hcnt]
      norm_num [List.range_succ]
    intro p hp
    rw [hlist, List.mem_singleton] at hp
    subst hp
    rw [first_pos_nan baseCount2.depth baseCount2.columns.width]
    rfl
  · intro base henabled hge hlt
    have hcount : base.columns.count = 1 ∨ base.columns.count = 2 := by omega
    have hmem : ∀ side < 4, ∀ p ∈ sideColumnPositions base side,
        p ∈ columnPositions base := by
      intro side hside p hp
      rw [columnPositions, if_pos henabled]
      exact List.mem_flatMap.mpr ⟨side, List.mem_range.mpr hside, hp⟩
    rcases hcount with h1 | h2
    · -- count 1: the front side (side 0) already has a single column.
      refine ⟨((JsNum.num (-base.width / 2) +
          JsNum.num ((0 : Nat) : ℚ) *
            ((JsNum.num base.width - JsNum.num base.columns.width) /
              JsNum.num ((1 : ℚ) - 1))),
          JsNum.num (base.depth / 2)), hmem 0 (by norm_num) _ ?_, ?_⟩
      · have hcnt : sideColumnCount base.columns 0 = 1 := by
          simp [sideColumnCount, h1]
        simp only [sideColumnPositions, hcnt]
        norm_num [h1]
      · rw [first_pos_nan base.width base.columns.width]
        rfl
    · -- count 2: a z-axis side (side 1) gets floor(1.5) = 1 column.
      refine ⟨(JsNum.num (base.width / 2),
          (JsNum.num (-base.depth / 2) +
            JsNum.num ((0 : Nat) : ℚ) *
              ((JsNum.num base.depth - JsNum.num base.columns.width) /
                JsNum.num ((1 : ℚ) - 1)))), hmem 1 (by norm_num) _ ?_, ?_⟩
      · have hcnt : sideColumnCount base.columns 1 = 1 := by
          simp [sideColumnCount, h2]
        simp only [sideColumnPositions, hcnt]
        norm_num [h2]
      · rw [first_pos_nan base.depth base.columns.width]
        rfl

/-- Witness for C10 at the source base configuration with `count = 2`: some
emitted column position is non-finite. -/
theorem column_positions_nonfinite_witness :
    ∃ p ∈ columnPositions baseCount2, (p.1.isFinite && p.2.isFinite) = false :=
  column_positions_nonfinite.2 baseCount2 rfl (by norm_num [baseCount2, buildingConfig])
    (by norm_num [baseCount2, buildingConfig])

end VirtualAust
